import Mathlib

/-!
Shallow embedding of `backend/pdf_analyzer/views.py` (DFIT backend).

The file models the file-processing pipeline of the endpoint
`analyze_and_cleanup_pdfs`: discovery of PDF and image candidates in the
object store, acquisition of their bytes over HTTP (with a signed-URL
fallback), text extraction (`extract_text_from_pdf_bytes`,
`extract_text_from_image_bytes`), and disposition (delete-on-success,
aggregation into the JSON response).

External libraries (fitz/PyMuPDF, PIL+cv2+pytesseract, requests, the
Cloudinary SDK) are modelled as parameters of an `Env` record: each is a
function from the request data to the outcome the library would produce
(`Except` for fallible calls).  Python strings are Lean `String`s
(character-level slicing matches Python's), bytes are `List Nat`.
-/

namespace DFIT

/-- Python `bytes` modelled as a list of byte values. -/
abbrev Bytes := List Nat

/-- The 4-byte PDF signature `%PDF` checked by `pdf_bytes.startswith(b'%PDF')`. -/
def pdfMagic : Bytes := [37, 80, 68, 70]

/-- `pdf_bytes.startswith(b'%PDF')`. -/
def hasPdfMagic (b : Bytes) : Bool := b.take 4 == pdfMagic

/-- The whitespace characters stripped/split by Python `str.strip()` / `str.split()`
(ASCII fragment, which is what the pipeline's text can contain). -/
def isPyWs (c : Char) : Bool :=
  c == ' ' || c == '\t' || c == '\n' || c == '\x0b' || c == '\x0c' || c == '\r'

/-- Python `s.strip()`: drop whitespace from both ends. -/
def pyStrip (s : String) : String :=
  ⟨((s.data.dropWhile isPyWs).reverse.dropWhile isPyWs).reverse⟩

/-- Python `s[:n]`: character-level slice. -/
def pyTake (s : String) (n : Nat) : String := ⟨s.data.take n⟩

/-- Python `len(s.split())`: number of whitespace-separated tokens (splitting
on whitespace runs, discarding empty pieces). -/
def pyWordCount (s : String) : Nat :=
  ((s.data.splitOnP isPyWs).filter (fun w => w ≠ [])).length

/-- Python `s.lower()` (ASCII). -/
def pyLower (s : String) : String := ⟨s.data.map Char.toLower⟩

/-- Python `public_id.split("/")[-1]` (a split result is never empty). -/
def lastSegment (s : String) : String :=
  ⟨(s.data.splitOnP (fun c => c == '/')).getLastD s.data⟩

/-! ## The extraction result record

Both extractors return a Python dict; the union of its keys is modelled as
one structure (`page_count` only populated by the PDF extractor,
`image_dimensions` only by the image extractor, `error` only on failure). -/

structure ExtractionResult where
  text : String
  page_count : Nat
  character_count : Nat
  word_count : Nat
  success : Bool
  error : Option String
  image_dimensions : Option String
deriving Repr, DecidableEq

/-! ## PDF extraction (`extract_text_from_pdf_bytes`, views.py 28-83)

fitz (PyMuPDF) is external: opening the byte stream either raises (modelled
as `Except.error msg`) or yields the document's pages.  A page carries the
data the three `get_text` calls would return: its `"text"` string, its
`"blocks"` tuples (tuple arity and the `block[4]` text field), and its
`"dict"` blocks (optional `"lines"`, each line a list of spans). -/

structure Span where
  text : String
deriving Repr, DecidableEq

structure Line where
  spans : List Span
deriving Repr, DecidableEq

structure DictBlock where
  lines : Option (List Line)
deriving Repr, DecidableEq

structure FitzBlock where
  arity : Nat
  text4 : String
deriving Repr, DecidableEq

structure Page where
  plainText : String
  blocks : List FitzBlock
  dictBlocks : List DictBlock
deriving Repr, DecidableEq

/-- Tier 1: `page.get_text("text")`. -/
def tier1 (p : Page) : String := p.plainText

/-- Tier 2: `"\n".join([block[4] for block in page_text if len(block) > 4])`. -/
def tier2 (p : Page) : String :=
  String.intercalate "\n" (((p.blocks.filter (fun b => 4 < b.arity)).map FitzBlock.text4))

/-- One line of tier 3: each span's text followed by a space, the line closed by a newline. -/
def lineText (ln : Line) : String :=
  String.join (ln.spans.map (fun sp => sp.text ++ " ")) ++ "\n"

/-- One `"dict"` block of tier 3: skipped when it has no `"lines"` key. -/
def dictBlockText (b : DictBlock) : String :=
  match b.lines with
  | none => ""
  | some ls => String.join (ls.map lineText)

/-- Tier 3: walk blocks, lines and spans of `page.get_text("dict")`. -/
def tier3 (p : Page) : String :=
  String.join (p.dictBlocks.map dictBlockText)

/-- Per-page text: the escalation of the three tiers, each tried when the
previous strips to empty (`if not page_text.strip()`). -/
def pageExtract (p : Page) : String :=
  let t1 := tier1 p
  if pyStrip t1 == "" then
    let t2 := tier2 p
    if pyStrip t2 == "" then tier3 p else t2
  else t1

/-- The page separator prepended to page `i` (0-based): `f"\n--- Page {page_num + 1} ---\n"`. -/
def pageHeader (i : Nat) : String := "\n--- Page " ++ toString (i + 1) ++ " ---\n"

/-- The concatenated document text accumulated over the page loop. -/
def pdfFullText (pages : List Page) : String :=
  String.join (pages.enum.map (fun pr => pageHeader pr.1 ++ pageExtract pr.2))

/-- `extract_text_from_pdf_bytes` (views.py 28-83), after the fitz parse of the
byte stream has been factored out as the `parsed` argument. -/
def extract_text_from_pdf_bytes (parsed : Except String (List Page)) : ExtractionResult :=
  match parsed with
  | .error e =>
    { text := "", page_count := 0, character_count := 0, word_count := 0,
      success := false, error := some e, image_dimensions := none }
  | .ok pages =>
    let text := pdfFullText pages
    { text := text, page_count := pages.length, character_count := text.length,
      word_count := pyWordCount text, success := true, error := none,
      image_dimensions := none }

/-! ## Image extraction (`extract_text_from_image_bytes`, views.py 85-137)

The PIL decode, the cv2 preprocessing chain and the tesseract call are
external; their combined outcome on the input bytes is either an exception
(anywhere in the chain) or the recognised text with the original image's
dimensions. -/

inductive ImgOutcome where
  | ok (text : String) (width height : Nat)
  | err (msg : String)
deriving Repr, DecidableEq

/-- `extract_text_from_image_bytes` (views.py 85-137); `ocrAvailable` is the
module-level `OCR_AVAILABLE` flag, `outcome` the external decode+OCR chain's
result on the bytes. -/
def extract_text_from_image_bytes (ocrAvailable : Bool) (outcome : ImgOutcome) : ExtractionResult :=
  if ocrAvailable = false then
    { text := "", page_count := 0, character_count := 0, word_count := 0,
      success := false, error := some "OCR dependencies not installed",
      image_dimensions := none }
  else
    match outcome with
    | .err e =>
      { text := "", page_count := 0, character_count := 0, word_count := 0,
        success := false, error := some e, image_dimensions := none }
    | .ok t w h =>
      let st := pyStrip t
      { text := st, page_count := 0, character_count := st.length,
        word_count := pyWordCount st, success := true, error := none,
        image_dimensions := some (toString w ++ "x" ++ toString h) }

/-! ## The pipeline environment

Everything the endpoint observes about the outside world: the request's
authenticated caller, the configuration, the store's answers to the two
list queries, and the behaviour of HTTP GETs (direct and signed), the fitz
parse, the image decode+OCR chain, and the Cloudinary delete call. -/

/-- One entry of a Cloudinary `resources` listing, with the fields the
pipeline reads (`public_id`, `format`, `secure_url`). -/
structure Resource where
  public_id : String
  format : String
  secure_url : String
deriving Repr, DecidableEq

/-- Calls the endpoint makes against the network / object store, in order. -/
inductive Event where
  | listResources (resource_type : String) (pref : String)
  | httpGet (url : String)
  | signedUrlGet (public_id : String) (resource_type : String) (accessType : String)
  | deleteReq (public_id : String) (resource_type : String)
deriving Repr, DecidableEq

structure Env where
  ocrAvailable : Bool
  /-- `str(request.user.id)`; `none` models the `AttributeError` path. -/
  callerId : Option String
  /-- all three Cloudinary credentials present in the environment. -/
  configOk : Bool
  /-- outcome of `api.resources(type="upload", prefix=…, resource_type="raw", max_results=100)`. -/
  rawList : Except String (List Resource)
  /-- outcome of the same query with `resource_type="image"`. -/
  imageList : Except String (List Resource)
  /-- `requests.get(url, headers, timeout=30)` + `raise_for_status`: bytes or the raised error. -/
  directGet : String → Except String Bytes
  /-- signed-URL construction + GET, keyed by (public_id, resource_type, type). -/
  signedGet : String → String → String → Except String Bytes
  /-- `fitz.open(stream=…)` + page walk on the downloaded bytes. -/
  pdfParse : Bytes → Except String (List Page)
  /-- PIL decode + cv2 preprocessing + tesseract on the downloaded bytes. -/
  imgDecode : Bytes → ImgOutcome
  /-- `cloudinary.uploader.destroy(public_id, resource_type=…)` confirmed `"ok"`. -/
  deleteOk : String → String → Bool

/-! ## Discovery (views.py 176-232) -/

/-- Image formats kept by the image-class filter (views.py 214). -/
def imageFormats : List String := ["jpg", "jpeg", "png", "tiff", "bmp", "webp"]

/-- The filtered PDF candidates: raw-class listing kept when
`file.get("format","").lower() == "pdf"`; a listing exception is swallowed
into an empty candidate list (views.py 180-197). -/
def pdfCandidates (env : Env) : List Resource :=
  match env.rawList with
  | .ok rs => rs.filter (fun f => pyLower f.format == "pdf")
  | .error _ => []

/-- The filtered image candidates: image-class listing kept when the
lower-cased format is in the allow-list; the query is only issued when OCR
is available, and a listing exception is swallowed (views.py 200-219). -/
def imageCandidates (env : Env) : List Resource :=
  if env.ocrAvailable then
    match env.imageList with
    | .ok rs => rs.filter (fun f => imageFormats.contains (pyLower f.format))
    | .error _ => []
  else []

/-! ## Per-file processing (views.py 242-384) -/

/-- A `processed_files` entry (views.py 293-303 for PDFs, 352-362 for images). -/
structure ProcessedEntry where
  filename : String
  public_id : String
  file_type : String
  resource_type : String
  /-- `pages` key, present only for PDFs. -/
  pages : Option Nat
  /-- `image_dimensions` key, present only for images. -/
  image_dimensions : Option String
  characters : Nat
  words : Nat
  text_preview : String
  extraction_method : String
deriving Repr, DecidableEq

/-- A `failed_files` entry (views.py 315-319, 323-327, 372-376, 380-384). -/
structure FailedEntry where
  public_id : String
  error : Option String
  file_type : String
deriving Repr, DecidableEq

inductive FileOutcome where
  | processed (entry : ProcessedEntry)
  | failed (entry : FailedEntry)
deriving Repr, DecidableEq

/-- The public id an outcome was recorded under. -/
def FileOutcome.pid : FileOutcome → String
  | .processed e => e.public_id
  | .failed e => e.public_id

/-- Everything one iteration of a processing loop contributes to the batch
state: the outcome appended to `processed_files`/`failed_files`, the text
appended to `total_text`, the pages added to `total_pages`, the id appended
to `deleted_files` (when the store confirmed), and the network events. -/
structure FileStep where
  outcome : FileOutcome
  textContrib : String
  pagesContrib : Nat
  deleted : Option String
  events : List Event
deriving Repr, DecidableEq

/-- `text_preview` field: `text[:500] + "..." if len(text) > 500 else text`. -/
def preview500 (t : String) : String :=
  if 500 < t.length then pyTake t 500 ++ "..." else t

/-- PDF acquisition (views.py 257-279): direct GET of the secure URL; on a
request exception, build a signed URL (same public id, `resource_type="raw"`,
`type="upload"`) and retry once; if that also fails, re-raise the ORIGINAL
direct error. -/
def acquirePdfBytes (env : Env) (r : Resource) : Except String Bytes × List Event :=
  match env.directGet r.secure_url with
  | .ok b => (.ok b, [.httpGet r.secure_url])
  | .error directError =>
    match env.signedGet r.public_id "raw" "upload" with
    | .ok b =>
      (.ok b, [.httpGet r.secure_url, .signedUrlGet r.public_id "raw" "upload"])
    | .error _ =>
      (.error directError, [.httpGet r.secure_url, .signedUrlGet r.public_id "raw" "upload"])

/-- One iteration of the PDF loop (views.py 242-327). -/
def processPdfFile (env : Env) (r : Resource) : FileStep :=
  let filename := lastSegment r.public_id
  match acquirePdfBytes env r with
  | (.error e, evs) =>
    { outcome := .failed { public_id := r.public_id, error := some e, file_type := "pdf" },
      textContrib := "", pagesContrib := 0, deleted := none, events := evs }
  | (.ok b, evs) =>
    if hasPdfMagic b = false then
      { outcome := .failed
            { public_id := r.public_id,
              error := some "Downloaded content is not a valid PDF file", file_type := "pdf" },
        textContrib := "", pagesContrib := 0, deleted := none, events := evs }
    else
      let er := extract_text_from_pdf_bytes (env.pdfParse b)
      if er.success then
        { outcome := .processed
            { filename := filename, public_id := r.public_id, file_type := "pdf",
              resource_type := "raw", pages := some er.page_count, image_dimensions := none,
              characters := er.character_count, words := er.word_count,
              text_preview := preview500 er.text,
              extraction_method := "PDF parsing (PyMuPDF)" },
          textContrib := "\n\n=== PDF FILE: " ++ r.public_id ++ " ===\n" ++ er.text,
          pagesContrib := er.page_count,
          deleted := if env.deleteOk r.public_id "raw" then some r.public_id else none,
          events := evs ++ [.deleteReq r.public_id "raw"] }
      else
        { outcome := .failed { public_id := r.public_id, error := er.error, file_type := "pdf" },
          textContrib := "", pagesContrib := 0, deleted := none, events := evs }

/-- One iteration of the image loop (views.py 331-384): a single direct GET
(no signed-URL fallback), then OCR; usable only when `success` AND
`character_count > 0`. -/
def processImageFile (env : Env) (r : Resource) : FileStep :=
  let filename := lastSegment r.public_id
  match env.directGet r.secure_url with
  | .error e =>
    { outcome := .failed { public_id := r.public_id, error := some e, file_type := "image" },
      textContrib := "", pagesContrib := 0, deleted := none,
      events := [.httpGet r.secure_url] }
  | .ok b =>
    let er := extract_text_from_image_bytes env.ocrAvailable (env.imgDecode b)
    if er.success && decide (0 < er.character_count) then
      { outcome := .processed
          { filename := filename, public_id := r.public_id, file_type := "image",
            resource_type := "image", pages := none,
            image_dimensions := some (er.image_dimensions.getD "unknown"),
            characters := er.character_count, words := er.word_count,
            text_preview := preview500 er.text,
            extraction_method := "OCR (Tesseract)" },
        textContrib := "\n\n=== IMAGE FILE: " ++ r.public_id ++ " ===\n" ++ er.text,
        pagesContrib := 0,
        deleted := if env.deleteOk r.public_id "image" then some r.public_id else none,
        events := [.httpGet r.secure_url, .deleteReq r.public_id "image"] }
    else
      { outcome := .failed
            { public_id := r.public_id,
              error := some (er.error.getD "No text detected"), file_type := "image" },
        textContrib := "", pagesContrib := 0, deleted := none,
        events := [.httpGet r.secure_url] }

/-- The whole batch: all PDF candidates in discovery order, then (the image
loop body runs only under `if OCR_AVAILABLE`, and `imageCandidates` is
already empty otherwise) all image candidates in discovery order. -/
def allSteps (env : Env) : List FileStep :=
  (pdfCandidates env).map (processPdfFile env)
    ++ (imageCandidates env).map (processImageFile env)

def stepProc (s : FileStep) : Option ProcessedEntry :=
  match s.outcome with
  | .processed e => some e
  | .failed _ => none

def stepFail (s : FileStep) : Option FailedEntry :=
  match s.outcome with
  | .failed e => some e
  | .processed _ => none

/-- The mutable accumulators of the processing loops (views.py 235-239). -/
structure BatchState where
  processed_files : List ProcessedEntry
  failed_files : List FailedEntry
  deleted_files : List String
  total_text : String
  total_pages : Nat
  events : List Event
deriving Repr, DecidableEq

/-- Folding the per-file steps, in order, into the batch accumulators. -/
def runBatch (steps : List FileStep) : BatchState :=
  { processed_files := steps.filterMap stepProc
    failed_files := steps.filterMap stepFail
    deleted_files := steps.filterMap FileStep.deleted
    total_text := String.join (steps.map FileStep.textContrib)
    total_pages := (steps.map FileStep.pagesContrib).sum
    events := (steps.map FileStep.events).flatten }

/-! ## The response (views.py 139-415) -/

/-- The `summary` object of the 200 body (views.py 390-400); the timestamp is
wall-clock and not modelled. -/
structure Summary where
  total_pdfs_found : Nat
  total_images_found : Nat
  files_processed : Nat
  files_failed : Nat
  files_deleted_from_cloudinary : Nat
  total_pages_processed : Nat
  total_characters_extracted : Nat
  ocr_available : Bool
deriving Repr, DecidableEq

/-- The 200 body (views.py 387-406). -/
structure SuccessBody where
  user_id : String
  summary : Summary
  processed_files : List ProcessedEntry
  failed_files : Option (List FailedEntry)
  combined_text_preview : String
  full_text_available : Bool
  extracted_text : String
deriving Repr, DecidableEq

inductive HttpResponse where
  | ok (body : SuccessBody)
  | err (status : Nat) (error : String)
deriving Repr, DecidableEq

/-- The 200 body built from the batch state. -/
def successBody (env : Env) (uid : String) : SuccessBody :=
  let st := runBatch (allSteps env)
  { user_id := uid
    summary :=
      { total_pdfs_found := (pdfCandidates env).length
        total_images_found := if env.ocrAvailable then (imageCandidates env).length else 0
        files_processed := st.processed_files.length
        files_failed := st.failed_files.length
        files_deleted_from_cloudinary := st.deleted_files.length
        total_pages_processed := st.total_pages
        total_characters_extracted := st.total_text.length
        ocr_available := env.ocrAvailable }
    processed_files := st.processed_files
    failed_files := if st.failed_files.isEmpty then none else some st.failed_files
    combined_text_preview :=
      if 3000 < st.total_text.length then pyTake st.total_text 3000 ++ "..." else st.total_text
    full_text_available := decide (3000 < st.total_text.length)
    extracted_text := st.total_text }

/-- The store-listing events of the discovery stage. -/
def discoveryEvents (env : Env) (uid : String) : List Event :=
  [Event.listResources "raw" ("uploads/" ++ uid ++ "/")]
    ++ (if env.ocrAvailable then [Event.listResources "image" ("uploads/" ++ uid ++ "/")] else [])

/-- The endpoint `analyze_and_cleanup_pdfs` (views.py 139-415): authorization
check, configuration check, discovery, the two processing loops, response
shaping.  Returns the HTTP response together with the ordered trace of
network/store calls made. -/
def analyze_and_cleanup_pdfs (env : Env) (user_id : String) : HttpResponse × List Event :=
  match env.callerId with
  | none => (.err 401 "User authentication error", [])
  | some currentUserId =>
    if currentUserId ≠ user_id then
      (.err 403 "Unauthorized access", [])
    else if env.configOk = false then
      (.err 500 "Cloudinary configuration missing", [])
    else if (pdfCandidates env).isEmpty && (imageCandidates env).isEmpty then
      (.err 404 "No processable files found for this user", discoveryEvents env user_id)
    else
      (.ok (successBody env user_id),
        discoveryEvents env user_id ++ ((allSteps env).map FileStep.events).flatten)

/-! ## Helper lemmas -/

theorem string_length_append (a b : String) : (a ++ b).length = a.length + b.length := by
  cases a
  cases b
  simp [String.length, String.append]

theorem pyTake_length (s : String) (n : Nat) : (pyTake s n).length = min n s.length := by
  cases s
  simp [pyTake, String.length]

/-- Every branch of the PDF loop records the outcome under the candidate's public id. -/
theorem processPdfFile_pid (env : Env) (r : Resource) :
    ((processPdfFile env r).outcome).pid = r.public_id := by
  rcases hacq : acquirePdfBytes env r with ⟨fb, evs⟩
  cases fb with
  | error e => simp [processPdfFile, hacq, FileOutcome.pid]
  | ok b =>
    by_cases hm : hasPdfMagic b = false
    · simp [processPdfFile, hacq, hm, FileOutcome.pid]
    · by_cases hs : (extract_text_from_pdf_bytes (env.pdfParse b)).success = true
      · simp [processPdfFile, hacq, hm, hs, FileOutcome.pid]
      · simp [processPdfFile, hacq, hm, hs, FileOutcome.pid]

/-- Every branch of the image loop records the outcome under the candidate's public id. -/
theorem processImageFile_pid (env : Env) (r : Resource) :
    ((processImageFile env r).outcome).pid = r.public_id := by
  cases hd : env.directGet r.secure_url with
  | error e => simp [processImageFile, hd, FileOutcome.pid]
  | ok b =>
    by_cases hu : ((extract_text_from_image_bytes env.ocrAvailable (env.imgDecode b)).success = true
        ∧ 0 < (extract_text_from_image_bytes env.ocrAvailable (env.imgDecode b)).character_count)
    · obtain ⟨hs, hc⟩ := hu
      simp [processImageFile, hd, hs, hc, FileOutcome.pid]
    · simp [processImageFile, hd, hu, FileOutcome.pid]

/-! ## Theorems for the claims -/

/-- C9: both extractors are total and, on any internal exception, return the
all-empty failure record carrying the exception message; with OCR missing the
image extractor returns the fixed dependency-failure record whatever the
decode outcome. -/
theorem c9_extractors_total (e1 e2 : String) (out : ImgOutcome) :
    extract_text_from_pdf_bytes (.error e1)
      = { text := "", page_count := 0, character_count := 0, word_count := 0,
          success := false, error := some e1, image_dimensions := none }
  ∧ extract_text_from_image_bytes true (.err e2)
      = { text := "", page_count := 0, character_count := 0, word_count := 0,
          success := false, error := some e2, image_dimensions := none }
  ∧ extract_text_from_image_bytes false out
      = { text := "", page_count := 0, character_count := 0, word_count := 0,
          success := false, error := some "OCR dependencies not installed",
          image_dimensions := none } := by
  refine ⟨rfl, rfl, ?_⟩
  cases out <;> rfl

/-- C4: on a parsed document the PDF extractor succeeds, walks the pages in
index order emitting each page's text behind its 1-based `--- Page N ---`
header, reports the length of the concatenated text (headers included) as the
character count, and per page stops at the first of the three tiers (plain
text, joined blocks, span dictionary) whose output does not strip to empty. -/
theorem c4_pdf_extraction_tiers (pages : List Page) (p : Page) :
    (extract_text_from_pdf_bytes (.ok pages)).success = true
  ∧ (extract_text_from_pdf_bytes (.ok pages)).page_count = pages.length
  ∧ (extract_text_from_pdf_bytes (.ok pages)).text
      = String.join (pages.enum.map (fun pr => pageHeader pr.1 ++ pageExtract pr.2))
  ∧ (extract_text_from_pdf_bytes (.ok pages)).character_count
      = (extract_text_from_pdf_bytes (.ok pages)).text.length
  ∧ (pyStrip (tier1 p) ≠ "" → pageExtract p = tier1 p)
  ∧ (pyStrip (tier1 p) = "" → pyStrip (tier2 p) ≠ "" → pageExtract p = tier2 p)
  ∧ (pyStrip (tier1 p) = "" → pyStrip (tier2 p) = "" → pageExtract p = tier3 p) := by
  refine ⟨rfl, rfl, rfl, rfl, ?_, ?_, ?_⟩
  · intro h1
    simp [pageExtract, h1]
  · intro h1 h2
    simp [pageExtract, h1, h2]
  · intro h1 h2
    simp [pageExtract, h1, h2]

/-- A concrete page whose first two tiers strip to empty. -/
def pageW : Page :=
  { plainText := " \n ",
    blocks := [{ arity := 7, text4 := "\t" }],
    dictBlocks := [{ lines := some [{ spans := [{ text := "span text" }] }] }] }

/-- Witness for C4 at a one-page document falling through to the span tier. -/
theorem c4_pdf_extraction_tiers_witness :
    pyStrip (tier1 pageW) = "" ∧ pyStrip (tier2 pageW) = ""
  ∧ pageExtract pageW = tier3 pageW ∧ tier3 pageW = "span text \n"
  ∧ (extract_text_from_pdf_bytes (.ok [pageW])).text = "\n--- Page 1 ---\nspan text \n" := by
  refine ⟨by decide, by decide, ?_, by decide, by decide⟩
  exact (c4_pdf_extraction_tiers [pageW] pageW).2.2.2.2.2.2 (by decide) (by decide)

/-- C5: a PDF candidate whose downloaded bytes lack the `%PDF` signature is
recorded as failed with the "not a valid PDF" message, and the outcome does
not depend on the PDF parser at all (extraction is never invoked). -/
theorem c5_invalid_pdf_signature (env : Env) (r : Resource) (b : Bytes)
    (f : Bytes → Except String (List Page))
    (hb : (acquirePdfBytes env r).1 = .ok b) (hm : hasPdfMagic b = false) :
    (processPdfFile env r).outcome
      = .failed { public_id := r.public_id,
                  error := some "Downloaded content is not a valid PDF file",
                  file_type := "pdf" }
  ∧ (∃ pre post, "Downloaded content is not a valid PDF file"
        = pre ++ "not a valid PDF" ++ post)
  ∧ processPdfFile { env with pdfParse := f } r = processPdfFile env r := by
  rcases hacq : acquirePdfBytes env r with ⟨fb, evs⟩
  rw [hacq] at hb
  have hfb : fb = Except.ok b := hb
  subst hfb
  have hacq' : acquirePdfBytes { env with pdfParse := f } r = (Except.ok b, evs) := by
    rw [← hacq]
    rfl
  refine ⟨?_, ⟨"Downloaded content is ", " file", by decide⟩, ?_⟩
  · simp [processPdfFile, hacq, hm]
  · simp [processPdfFile, hacq, hacq', hm]

/-- C6: an image whose download and OCR succeed but whose recognised text
strips to zero characters is recorded as failed with "No text detected",
though the extraction result itself has `success = true`. -/
theorem c6_zero_char_image (env : Env) (r : Resource) (b : Bytes) (t : String) (w hgt : Nat)
    (hocr : env.ocrAvailable = true) (hget : env.directGet r.secure_url = .ok b)
    (hdec : env.imgDecode b = .ok t w hgt) (hz : pyStrip t = "") :
    (processImageFile env r).outcome
      = .failed { public_id := r.public_id, error := some "No text detected",
                  file_type := "image" }
  ∧ (extract_text_from_image_bytes env.ocrAvailable (env.imgDecode b)).success = true
  ∧ (extract_text_from_image_bytes env.ocrAvailable (env.imgDecode b)).character_count = 0 := by
  have her : extract_text_from_image_bytes env.ocrAvailable (env.imgDecode b)
      = { text := "", page_count := 0, character_count := 0, word_count := 0,
          success := true, error := none,
          image_dimensions := some (toString w ++ "x" ++ toString hgt) } := by
    rw [hocr, hdec]
    simp [extract_text_from_image_bytes, hz]
    decide
  refine ⟨?_, by rw [her], by rw [her]⟩
  simp [processImageFile, hget, her]

/-- C8: when the authenticated caller's identity differs from the path's user
id the endpoint answers 403 with an error body, and the trace of store and
network calls is empty. -/
theorem c8_identity_mismatch (env : Env) (uid cid : String)
    (h1 : env.callerId = some cid) (h2 : cid ≠ uid) :
    analyze_and_cleanup_pdfs env uid = (.err 403 "Unauthorized access", []) := by
  simp [analyze_and_cleanup_pdfs, h1, h2]

/-- Counting public ids over a loop's steps: each candidate contributes its
outcome to exactly one of the processed/failed streams. -/
theorem steps_countP (f : Resource → FileStep)
    (hf : ∀ r, ((f r).outcome).pid = r.public_id)
    (cands : List Resource) (pid : String) :
    ((cands.map f).filterMap stepProc).countP (fun e => e.public_id == pid)
      + ((cands.map f).filterMap stepFail).countP (fun e => e.public_id == pid)
      = cands.countP (fun r => r.public_id == pid) := by
  induction cands with
  | nil => rfl
  | cons c cs ih =>
    simp only [List.map_cons, List.filterMap_cons]
    cases ho : (f c).outcome with
    | processed e =>
      have hp : stepProc (f c) = some e := by simp [stepProc, ho]
      have hq : stepFail (f c) = none := by simp [stepFail, ho]
      rw [hp, hq]
      have hpid : e.public_id = c.public_id := by
        have hh := hf c
        rw [ho] at hh
        exact hh
      simp only [List.countP_cons, hpid]
      cases hcp : (c.public_id == pid) <;> simp [hcp] at ih ⊢ <;> omega
    | failed e =>
      have hp : stepProc (f c) = none := by simp [stepProc, ho]
      have hq : stepFail (f c) = some e := by simp [stepFail, ho]
      rw [hp, hq]
      have hpid : e.public_id = c.public_id := by
        have hh := hf c
        rw [ho] at hh
        exact hh
      simp only [List.countP_cons, hpid]
      cases hcp : (c.public_id == pid) <;> simp [hcp] at ih ⊢ <;> omega

/-- The whole batch partitions the candidates of both classes. -/
theorem allSteps_countP (env : Env) (pid : String) :
    ((allSteps env).filterMap stepProc).countP (fun e => e.public_id == pid)
      + ((allSteps env).filterMap stepFail).countP (fun e => e.public_id == pid)
      = (pdfCandidates env ++ imageCandidates env).countP (fun r => r.public_id == pid) := by
  unfold allSteps
  rw [List.filterMap_append, List.filterMap_append, List.countP_append,
    List.countP_append, List.countP_append]
  have h1 := steps_countP (processPdfFile env) (processPdfFile_pid env) (pdfCandidates env) pid
  have h2 := steps_countP (processImageFile env) (processImageFile_pid env) (imageCandidates env) pid
  omega

/-- A 200 response's body is the one built from the batch state. -/
theorem analyze_ok_body (env : Env) (uid : String) (body : SuccessBody) (evs : List Event)
    (h : analyze_and_cleanup_pdfs env uid = (.ok body, evs)) :
    body = successBody env uid := by
  unfold analyze_and_cleanup_pdfs at h
  cases hc : env.callerId with
  | none =>
    rw [hc] at h
    simp at h
  | some cid =>
    rw [hc] at h
    dsimp only at h
    by_cases h1 : cid ≠ uid
    · rw [if_pos h1] at h
      exact absurd (congrArg Prod.fst h) (by simp)
    · rw [if_neg h1] at h
      by_cases h2 : env.configOk = false
      · rw [if_pos h2] at h
        exact absurd (congrArg Prod.fst h) (by simp)
      · rw [if_neg h2] at h
        by_cases h3 : ((pdfCandidates env).isEmpty && (imageCandidates env).isEmpty) = true
        · rw [if_pos h3] at h
          exact absurd (congrArg Prod.fst h) (by simp)
        · rw [if_neg h3] at h
          exact (HttpResponse.ok.inj (congrArg Prod.fst h)).symm

/-- The `failed_files` field recovers the failed list. -/
theorem successBody_failed_getD (env : Env) (uid : String) :
    ((successBody env uid).failed_files).getD [] = (runBatch (allSteps env)).failed_files := by
  simp only [successBody]
  cases hfe : (runBatch (allSteps env)).failed_files with
  | nil => simp
  | cons a l => simp

/-- C1: in every 200 response, counting with multiplicity over public ids,
the processed and failed sequences together contain each filtered PDF and
image candidate exactly once — nothing dropped, nothing duplicated across
the two. -/
theorem c1_candidate_partition (env : Env) (uid : String) (body : SuccessBody)
    (evs : List Event) (pid : String)
    (h : analyze_and_cleanup_pdfs env uid = (.ok body, evs)) :
    body.processed_files.countP (fun e => e.public_id == pid)
      + (body.failed_files.getD []).countP (fun e => e.public_id == pid)
      = (pdfCandidates env ++ imageCandidates env).countP (fun r => r.public_id == pid) := by
  have hb := analyze_ok_body env uid body evs h
  subst hb
  rw [successBody_failed_getD env uid]
  exact allSteps_countP env pid

/-- Acquisition alone never issues a delete request. -/
theorem acquire_no_delete (env : Env) (r : Resource) (p rt : String) :
    (Event.deleteReq p rt) ∉ (acquirePdfBytes env r).2 := by
  unfold acquirePdfBytes
  cases env.directGet r.secure_url with
  | ok b => simp
  | error e => cases env.signedGet r.public_id "raw" "upload" <;> simp

/-- A PDF step only records a deletion for the id it processed. -/
theorem processPdfFile_deleted (env : Env) (c : Resource) (pid : String)
    (h : (processPdfFile env c).deleted = some pid) :
    ∃ e, stepProc (processPdfFile env c) = some e ∧ e.public_id = pid := by
  rcases hacq : acquirePdfBytes env c with ⟨fb, evs⟩
  cases fb with
  | error e => simp [processPdfFile, hacq] at h
  | ok b =>
    by_cases hm : hasPdfMagic b = false
    · simp [processPdfFile, hacq, hm] at h
    · by_cases hs : (extract_text_from_pdf_bytes (env.pdfParse b)).success = true
      · have h' : (if env.deleteOk c.public_id "raw" = true
              then some c.public_id else none) = some pid := by
          simpa [processPdfFile, hacq, hm, hs] using h
        have hpid : c.public_id = pid := by
          by_cases hdel : env.deleteOk c.public_id "raw" = true
          · simpa [hdel] using h'
          · simp [hdel] at h'
        cases hsp : stepProc (processPdfFile env c) with
        | none =>
          exfalso
          simp only [processPdfFile, hacq] at hsp
          rw [if_neg hm, if_pos hs] at hsp
          simp [stepProc] at hsp
        | some e =>
          refine ⟨e, rfl, ?_⟩
          simp only [processPdfFile, hacq] at hsp
          rw [if_neg hm, if_pos hs] at hsp
          simp only [stepProc] at hsp
          injection hsp with he
          rw [← he]
          exact hpid
      · simp [processPdfFile, hacq, hm, hs] at h

/-- An image step only records a deletion for the id it processed. -/
theorem processImageFile_deleted (env : Env) (c : Resource) (pid : String)
    (h : (processImageFile env c).deleted = some pid) :
    ∃ e, stepProc (processImageFile env c) = some e ∧ e.public_id = pid := by
  cases hd : env.directGet c.secure_url with
  | error e => simp [processImageFile, hd] at h
  | ok b =>
    by_cases hu : ((extract_text_from_image_bytes env.ocrAvailable (env.imgDecode b)).success = true
        ∧ 0 < (extract_text_from_image_bytes env.ocrAvailable (env.imgDecode b)).character_count)
    · obtain ⟨hs, hc⟩ := hu
      have h' : (if env.deleteOk c.public_id "image" = true
            then some c.public_id else none) = some pid := by
        simpa [processImageFile, hd, hs, hc] using h
      have hpid : c.public_id = pid := by
        by_cases hdel : env.deleteOk c.public_id "image" = true
        · simpa [hdel] using h'
        · simp [hdel] at h'
      cases hsp : stepProc (processImageFile env c) with
      | none =>
        exfalso
        simp only [processImageFile, hd] at hsp
        rw [if_pos (by simp [hs, hc])] at hsp
        simp [stepProc] at hsp
      | some e =>
        refine ⟨e, rfl, ?_⟩
        simp only [processImageFile, hd] at hsp
        rw [if_pos (by simp [hs, hc])] at hsp
        simp only [stepProc] at hsp
        injection hsp with he
        rw [← he]
        exact hpid
    · simp [processImageFile, hd, hu] at h

/-- A PDF candidate recorded as failed is never deleted: no deletion is
recorded and no delete request is issued. -/
theorem processPdfFile_failed_no_delete (env : Env) (c : Resource) (fe : FailedEntry)
    (h : (processPdfFile env c).outcome = .failed fe) :
    (processPdfFile env c).deleted = none
      ∧ ∀ p rt, (Event.deleteReq p rt) ∉ (processPdfFile env c).events := by
  rcases hacq : acquirePdfBytes env c with ⟨fb, evs⟩
  have hevs : evs = (acquirePdfBytes env c).2 := by rw [hacq]
  cases fb with
  | error e =>
    refine ⟨by simp [processPdfFile, hacq], fun p rt => ?_⟩
    simp only [processPdfFile, hacq]
    rw [hevs]
    exact acquire_no_delete env c p rt
  | ok b =>
    by_cases hm : hasPdfMagic b = false
    · refine ⟨by simp [processPdfFile, hacq, hm], fun p rt => ?_⟩
      simp only [processPdfFile, hacq]
      rw [if_pos hm]
      rw [hevs]
      exact acquire_no_delete env c p rt
    · by_cases hs : (extract_text_from_pdf_bytes (env.pdfParse b)).success = true
      · exact absurd h (by simp [processPdfFile, hacq, hm, hs])
      · refine ⟨by simp [processPdfFile, hacq, hm, hs], fun p rt => ?_⟩
        simp only [processPdfFile, hacq]
        rw [if_neg hm, if_neg hs]
        rw [hevs]
        exact acquire_no_delete env c p rt

/-- An image candidate recorded as failed is never deleted. -/
theorem processImageFile_failed_no_delete (env : Env) (c : Resource) (fe : FailedEntry)
    (h : (processImageFile env c).outcome = .failed fe) :
    (processImageFile env c).deleted = none
      ∧ ∀ p rt, (Event.deleteReq p rt) ∉ (processImageFile env c).events := by
  cases hd : env.directGet c.secure_url with
  | error e => refine ⟨by simp [processImageFile, hd], fun p rt => by simp [processImageFile, hd]⟩
  | ok b =>
    by_cases hu : ((extract_text_from_image_bytes env.ocrAvailable (env.imgDecode b)).success = true
        ∧ 0 < (extract_text_from_image_bytes env.ocrAvailable (env.imgDecode b)).character_count)
    · obtain ⟨hs, hc⟩ := hu
      exact absurd h (by simp [processImageFile, hd, hs, hc])
    · refine ⟨by simp [processImageFile, hd, hu], fun p rt => by simp [processImageFile, hd, hu]⟩

/-- C2: a delete request is issued for a candidate exactly when its
extraction succeeded and met the per-type usability rule (PDFs: any
successful parse; images: strictly positive character count); every id in
the deleted list belongs to a processed entry, and a failed step records no
deletion and issues no delete request. -/
theorem c2_delete_iff_usable (env : Env) (r : Resource) :
    ((Event.deleteReq r.public_id "raw") ∈ (processPdfFile env r).events ↔
      (∃ b, (acquirePdfBytes env r).1 = Except.ok b ∧ hasPdfMagic b = true ∧
        (extract_text_from_pdf_bytes (env.pdfParse b)).success = true))
  ∧ ((Event.deleteReq r.public_id "image") ∈ (processImageFile env r).events ↔
      (∃ b, env.directGet r.secure_url = Except.ok b ∧
        (extract_text_from_image_bytes env.ocrAvailable (env.imgDecode b)).success = true ∧
        0 < (extract_text_from_image_bytes env.ocrAvailable (env.imgDecode b)).character_count))
  ∧ (∀ pid, pid ∈ (runBatch (allSteps env)).deleted_files →
      ∃ e ∈ (runBatch (allSteps env)).processed_files, e.public_id = pid)
  ∧ (∀ s ∈ allSteps env, ∀ fe, s.outcome = FileOutcome.failed fe →
      s.deleted = none ∧ ∀ p rt, (Event.deleteReq p rt) ∉ s.events) := by
  refine ⟨?_, ?_, ?_, ?_⟩
  · rcases hacq : acquirePdfBytes env r with ⟨fb, evs⟩
    have hnd : (Event.deleteReq r.public_id "raw") ∉ evs := by
      have hevs : evs = (acquirePdfBytes env r).2 := by rw [hacq]
      rw [hevs]
      exact acquire_no_delete env r _ _
    cases fb with
    | error e =>
      simp only [processPdfFile, hacq]
      simp [hnd, hacq]
    | ok b =>
      by_cases hm : hasPdfMagic b = false
      · simp only [processPdfFile, hacq]
        rw [if_pos hm]
        simp [hnd, hacq, hm]
      · by_cases hs : (extract_text_from_pdf_bytes (env.pdfParse b)).success = true
        · simp only [processPdfFile, hacq]
          rw [if_neg hm, if_pos hs]
          simp only [List.mem_append, List.mem_singleton]
          constructor
          · intro _
            exact ⟨b, rfl, by simpa using hm, hs⟩
          · intro _
            exact Or.inr trivial
        · simp only [processPdfFile, hacq]
          rw [if_neg hm, if_neg hs]
          simp [hnd, hacq, hs]
  · cases hd : env.directGet r.secure_url with
    | error e => simp [processImageFile, hd]
    | ok b =>
      by_cases hu : ((extract_text_from_image_bytes env.ocrAvailable (env.imgDecode b)).success = true
          ∧ 0 < (extract_text_from_image_bytes env.ocrAvailable (env.imgDecode b)).character_count)
      · obtain ⟨hs, hc⟩ := hu
        simp [processImageFile, hd, hs, hc]
      · simp only [processImageFile, hd]
        rw [if_neg (by simpa using hu)]
        simp only [List.mem_singleton]
        constructor
        · intro hmem
          exact absurd hmem (by simp)
        · rintro ⟨b', hb', hs', hc'⟩
          cases hb'
          exact absurd ⟨hs', hc'⟩ hu
  · intro pid hmem
    rw [show (runBatch (allSteps env)).deleted_files
        = (allSteps env).filterMap FileStep.deleted from rfl] at hmem
    obtain ⟨s, hsmem, hsdel⟩ := List.mem_filterMap.mp hmem
    have hstep : ∃ e, stepProc s = some e ∧ e.public_id = pid := by
      rcases List.mem_append.mp hsmem with hpdf | himg
      · obtain ⟨c, _, hc⟩ := List.mem_map.mp hpdf
        rw [← hc] at hsdel ⊢
        exact processPdfFile_deleted env c pid hsdel
      · obtain ⟨c, _, hc⟩ := List.mem_map.mp himg
        rw [← hc] at hsdel ⊢
        exact processImageFile_deleted env c pid hsdel
    obtain ⟨e, hse, hepid⟩ := hstep
    exact ⟨e, List.mem_filterMap.mpr ⟨s, hsmem, hse⟩, hepid⟩
  · intro s hsmem fe hfe
    rcases List.mem_append.mp hsmem with hpdf | himg
    · obtain ⟨c, _, hc⟩ := List.mem_map.mp hpdf
      rw [← hc] at hfe ⊢
      exact processPdfFile_failed_no_delete env c fe hfe
    · obtain ⟨c, _, hc⟩ := List.mem_map.mp himg
      rw [← hc] at hfe ⊢
      exact processImageFile_failed_no_delete env c fe hfe

/-- A concrete image candidate for which the direct download fails. -/
def cexImage : Resource :=
  { public_id := "uploads/u7/scan1", format := "png",
    secure_url := "https://res.cloudinary.example/image/upload/uploads/u7/scan1.png" }

/-- A concrete environment whose direct GETs always fail while a signed GET
would succeed and whose OCR would find text, isolating the fallback path. -/
def cexEnv : Env :=
  { ocrAvailable := true, callerId := some "u7", configOk := true,
    rawList := .ok [], imageList := .ok [cexImage],
    directGet := fun _ => .error "HTTPSConnectionPool: Max retries exceeded",
    signedGet := fun _ _ _ => .ok [1],
    pdfParse := fun _ => .error "unused",
    imgDecode := fun _ => .ok "some text" 12 8,
    deleteOk := fun _ _ => true }

/-- C3 counterexample: for this image-class candidate the direct GET fails,
yet the loop issues no signed-URL retry at all — its only network event is
the direct GET — and records the file as failed with the direct error, even
though the signed GET would have succeeded.  The claim's "raw-class and
image-class alike" is false on the code. -/
theorem c3_counterexample :
    cexEnv.directGet cexImage.secure_url
        = Except.error "HTTPSConnectionPool: Max retries exceeded"
  ∧ (processImageFile cexEnv cexImage).events = [Event.httpGet cexImage.secure_url]
  ∧ (processImageFile cexEnv cexImage).outcome
      = FileOutcome.failed
          { public_id := "uploads/u7/scan1",
            error := some "HTTPSConnectionPool: Max retries exceeded",
            file_type := "image" }
  ∧ cexEnv.signedGet cexImage.public_id "image" "upload" = Except.ok [1] :=
  ⟨rfl, rfl, rfl, rfl⟩

/-- C3 amended: only PDF (raw-class) candidates get the signed-URL fallback:
on a direct failure the loop builds a signed URL for the same public id with
resource type "raw" and access type "upload" and retries exactly once, and
when the fallback also fails the file is recorded as failed with the
ORIGINAL direct error and extraction is skipped; an image candidate whose
direct GET fails is recorded as failed with the direct error with no
fallback attempt. -/
theorem c3_pdf_fallback_only (env : Env) (r ri : Resource) (e e2 ei : String)
    (hd : env.directGet r.secure_url = .error e)
    (hs2 : env.signedGet r.public_id "raw" "upload" = .error e2)
    (hdi : env.directGet ri.secure_url = .error ei) :
    (acquirePdfBytes env r).2
        = [Event.httpGet r.secure_url, Event.signedUrlGet r.public_id "raw" "upload"]
  ∧ processPdfFile env r
      = { outcome := .failed { public_id := r.public_id, error := some e, file_type := "pdf" },
          textContrib := "", pagesContrib := 0, deleted := none,
          events := [Event.httpGet r.secure_url,
                     Event.signedUrlGet r.public_id "raw" "upload"] }
  ∧ processImageFile env ri
      = { outcome := .failed
              { public_id := ri.public_id, error := some ei, file_type := "image" },
          textContrib := "", pagesContrib := 0, deleted := none,
          events := [Event.httpGet ri.secure_url] } := by
  have hacq : acquirePdfBytes env r
      = (Except.error e,
          [Event.httpGet r.secure_url, Event.signedUrlGet r.public_id "raw" "upload"]) := by
    unfold acquirePdfBytes
    rw [hd, hs2]
  refine ⟨by rw [hacq], ?_, ?_⟩
  · simp [processPdfFile, hacq]
  · simp [processImageFile, hdi]

/-- C7: the preview field of a 200 response never exceeds 3003 characters,
and the full-text flag is set exactly when the combined text is longer than
3000 characters. -/
theorem c7_preview_bound (env : Env) (uid : String) (body : SuccessBody) (evs : List Event)
    (h : analyze_and_cleanup_pdfs env uid = (.ok body, evs)) :
    body.combined_text_preview.length ≤ 3003
  ∧ (body.full_text_available = true ↔ 3000 < body.extracted_text.length) := by
  have hb := analyze_ok_body env uid body evs h
  subst hb
  constructor
  · show (if 3000 < (runBatch (allSteps env)).total_text.length
        then pyTake (runBatch (allSteps env)).total_text 3000 ++ "..."
        else (runBatch (allSteps env)).total_text).length ≤ 3003
    by_cases hlen : 3000 < (runBatch (allSteps env)).total_text.length
    · rw [if_pos hlen, string_length_append, pyTake_length]
      have hmin := Nat.min_le_left 3000 (runBatch (allSteps env)).total_text.length
      have h3 : ("..." : String).length = 3 := rfl
      omega
    · rw [if_neg hlen]
      omega
  · show decide (3000 < (runBatch (allSteps env)).total_text.length) = true
        ↔ 3000 < (runBatch (allSteps env)).total_text.length
    exact ⟨of_decide_eq_true, decide_eq_true⟩

/-- C10: the 200 response's summary counters agree with the body: processed
count, deleted count, failed count and character total all match, and
`failed_files` is null exactly when no file failed. -/
theorem c10_summary_consistency (env : Env) (uid : String) (body : SuccessBody)
    (evs : List Event)
    (h : analyze_and_cleanup_pdfs env uid = (.ok body, evs)) :
    body.summary.files_processed = body.processed_files.length
  ∧ body.summary.files_deleted_from_cloudinary
      = (runBatch (allSteps env)).deleted_files.length
  ∧ body.summary.total_characters_extracted = body.extracted_text.length
  ∧ body.summary.files_failed = (runBatch (allSteps env)).failed_files.length
  ∧ (body.failed_files = none ↔ body.summary.files_failed = 0) := by
  have hb := analyze_ok_body env uid body evs h
  subst hb
  refine ⟨rfl, rfl, rfl, rfl, ?_⟩
  show (if (runBatch (allSteps env)).failed_files.isEmpty
      then none else some (runBatch (allSteps env)).failed_files) = none
    ↔ (runBatch (allSteps env)).failed_files.length = 0
  cases hfe : (runBatch (allSteps env)).failed_files with
  | nil => simp
  | cons a l => simp

/-! ## Concrete environments for the witnesses -/

def wRaw : Resource :=
  { public_id := "uploads/u1/doc1", format := "pdf", secure_url := "https://cdn/doc1" }

def wImg : Resource :=
  { public_id := "uploads/u1/pic1", format := "jpg", secure_url := "https://cdn/pic1" }

def wPage : Page := { plainText := "Alpha beta", blocks := [], dictBlocks := [] }

/-- Happy-path environment: one PDF and one image, both downloadable. -/
def wEnv : Env :=
  { ocrAvailable := true, callerId := some "u1", configOk := true,
    rawList := .ok [wRaw], imageList := .ok [wImg],
    directGet := fun u => if u == "https://cdn/doc1" then .ok [37, 80, 68, 70, 32] else .ok [9],
    signedGet := fun _ _ _ => .error "sig", pdfParse := fun _ => .ok [wPage],
    imgDecode := fun _ => .ok "OCR text" 8 6, deleteOk := fun _ _ => true }

/-- The event trace of the happy-path run. -/
def wEvs : List Event :=
  discoveryEvents wEnv "u1" ++ ((allSteps wEnv).map FileStep.events).flatten

/-- Environment where every GET, direct or signed, fails. -/
def wEnvFail : Env :=
  { ocrAvailable := true, callerId := some "u1", configOk := true,
    rawList := .ok [wRaw], imageList := .ok [wImg],
    directGet := fun _ => .error "net down", signedGet := fun _ _ _ => .error "sig down",
    pdfParse := fun _ => .ok [wPage], imgDecode := fun _ => .ok "t" 1 1,
    deleteOk := fun _ _ => true }

/-- Environment serving bytes that are not a PDF. -/
def wEnvBad : Env :=
  { ocrAvailable := false, callerId := some "u1", configOk := true,
    rawList := .ok [wRaw], imageList := .ok [],
    directGet := fun _ => .ok [72, 84], signedGet := fun _ _ _ => .error "sig",
    pdfParse := fun _ => .ok [wPage], imgDecode := fun _ => .err "no ocr",
    deleteOk := fun _ _ => true }

/-- Environment whose OCR recognises only whitespace. -/
def wEnvBlank : Env :=
  { ocrAvailable := true, callerId := some "u1", configOk := true,
    rawList := .ok [], imageList := .ok [wImg],
    directGet := fun _ => .ok [1], signedGet := fun _ _ _ => .error "sig",
    pdfParse := fun _ => .error "unused", imgDecode := fun _ => .ok "   " 4 5,
    deleteOk := fun _ _ => true }

/-! ## Witnesses -/

/-- Witness for C1 on the happy-path run. -/
theorem c1_candidate_partition_witness :
    (successBody wEnv "u1").processed_files.countP
        (fun e => e.public_id == "uploads/u1/doc1")
      + (((successBody wEnv "u1").failed_files).getD []).countP
        (fun e => e.public_id == "uploads/u1/doc1")
      = (pdfCandidates wEnv ++ imageCandidates wEnv).countP
        (fun r => r.public_id == "uploads/u1/doc1") :=
  c1_candidate_partition wEnv "u1" (successBody wEnv "u1") wEvs "uploads/u1/doc1" rfl

/-- Witness for C2's delete-iff-usable on the happy-path PDF. -/
theorem c2_delete_iff_usable_witness :
    (Event.deleteReq wRaw.public_id "raw") ∈ (processPdfFile wEnv wRaw).events ↔
      (∃ b, (acquirePdfBytes wEnv wRaw).1 = Except.ok b ∧ hasPdfMagic b = true ∧
        (extract_text_from_pdf_bytes (wEnv.pdfParse b)).success = true) :=
  (c2_delete_iff_usable wEnv wRaw).1

/-- Witness for the amended C3 on the all-failing environment. -/
theorem c3_pdf_fallback_only_witness :
    (acquirePdfBytes wEnvFail wRaw).2
        = [Event.httpGet wRaw.secure_url, Event.signedUrlGet wRaw.public_id "raw" "upload"]
  ∧ processPdfFile wEnvFail wRaw
      = { outcome := .failed
              { public_id := wRaw.public_id, error := some "net down", file_type := "pdf" },
          textContrib := "", pagesContrib := 0, deleted := none,
          events := [Event.httpGet wRaw.secure_url,
                     Event.signedUrlGet wRaw.public_id "raw" "upload"] }
  ∧ processImageFile wEnvFail wImg
      = { outcome := .failed
              { public_id := wImg.public_id, error := some "net down", file_type := "image" },
          textContrib := "", pagesContrib := 0, deleted := none,
          events := [Event.httpGet wImg.secure_url] } :=
  c3_pdf_fallback_only wEnvFail wRaw wImg "net down" "sig down" "net down" rfl rfl rfl

/-- Witness for C5 on the non-PDF bytes environment. -/
theorem c5_invalid_pdf_signature_witness :
    (processPdfFile wEnvBad wRaw).outcome
      = .failed { public_id := wRaw.public_id,
                  error := some "Downloaded content is not a valid PDF file",
                  file_type := "pdf" }
  ∧ (∃ pre post, "Downloaded content is not a valid PDF file"
        = pre ++ "not a valid PDF" ++ post)
  ∧ processPdfFile { wEnvBad with pdfParse := fun _ => Except.error "never" } wRaw
      = processPdfFile wEnvBad wRaw :=
  c5_invalid_pdf_signature wEnvBad wRaw [72, 84] (fun _ => Except.error "never") rfl rfl

/-- Witness for C6 on the whitespace-recognition environment. -/
theorem c6_zero_char_image_witness :
    (processImageFile wEnvBlank wImg).outcome
      = .failed { public_id := wImg.public_id, error := some "No text detected",
                  file_type := "image" }
  ∧ (extract_text_from_image_bytes wEnvBlank.ocrAvailable (wEnvBlank.imgDecode [1])).success
      = true
  ∧ (extract_text_from_image_bytes wEnvBlank.ocrAvailable
        (wEnvBlank.imgDecode [1])).character_count = 0 :=
  c6_zero_char_image wEnvBlank wImg [1] "   " 4 5 rfl rfl rfl rfl

/-- Witness for C7 on the happy-path run. -/
theorem c7_preview_bound_witness :
    (successBody wEnv "u1").combined_text_preview.length ≤ 3003
  ∧ ((successBody wEnv "u1").full_text_available = true
      ↔ 3000 < (successBody wEnv "u1").extracted_text.length) :=
  c7_preview_bound wEnv "u1" (successBody wEnv "u1") wEvs rfl

/-- Witness for C8: a caller authenticated as u1 hitting u2's path. -/
theorem c8_identity_mismatch_witness :
    analyze_and_cleanup_pdfs wEnv "u2" = (.err 403 "Unauthorized access", []) :=
  c8_identity_mismatch wEnv "u2" "u1" rfl (by decide)

/-- Witness for C10 on the happy-path run. -/
theorem c10_summary_consistency_witness :
    (successBody wEnv "u1").summary.files_processed
      = (successBody wEnv "u1").processed_files.length
  ∧ (successBody wEnv "u1").summary.files_deleted_from_cloudinary
      = (runBatch (allSteps wEnv)).deleted_files.length
  ∧ (successBody wEnv "u1").summary.total_characters_extracted
      = (successBody wEnv "u1").extracted_text.length
  ∧ (successBody wEnv "u1").summary.files_failed
      = (runBatch (allSteps wEnv)).failed_files.length
  ∧ ((successBody wEnv "u1").failed_files = none
      ↔ (successBody wEnv "u1").summary.files_failed = 0) :=
  c10_summary_consistency wEnv "u1" (successBody wEnv "u1") wEvs rfl

end DFIT
